import Mathlib

/-!
Verification development for the `sqlalchemy-cloudflare-d1` adapter
(`src/sqlalchemy_cloudflare_d1/connection.py`).

The embedding mirrors the two classes of the source:
`CloudflareD1Connection` (the execution channel) and `CloudflareD1Result`
(the row cursor).  Python dynamic values are modelled by the inductive
type `Val`, rows and metadata dictionaries by association lists, Python
list slicing and indexing (including negative indices) by `pySlice` and
`pyGetItem`, and exception-based signalling by `Except D1Error`.
The HTTP transport collaborator is modelled as an explicit input
(`TransportOutcome`) to `execute`.
-/

set_option autoImplicit false

namespace D1

/-- A dynamically-typed scalar value, as would appear in a JSON row. -/
inductive Val where
  | null : Val
  | int : Int → Val
  | str : String → Val
  | bool : Bool → Val
deriving DecidableEq, Repr

/-- A row record: an ordered mapping from column name to value (a Python dict). -/
abbrev Row := List (String × Val)

/-- A metadata mapping (a Python dict), e.g. `changes`, `last_row_id`. -/
abbrev Meta := List (String × Val)

/-- Python `d.get(k)`: the value at the first matching key, or `none`. -/
def dget (m : List (String × Val)) (k : String) : Option Val :=
  (m.find? (fun p => p.1 == k)).map (·.2)

/-- Normalisation of one Python slice bound for a list of length `n`:
a negative bound counts from the end, and the result is clamped into
`[0, n]`. -/
def pyBound (n : Nat) (i : Int) : Int :=
  if i < 0 then max (i + n) 0 else min i n

/-- Python list slicing `l[start:stop]` (step 1): both bounds are
normalised with `pyBound`, then the elements strictly between them are
returned. -/
def pySlice {α : Type} (l : List α) (start stop : Int) : List α :=
  (l.drop (pyBound l.length start).toNat).take
    (pyBound l.length stop - pyBound l.length start).toNat

/-- Python list indexing `l[i]`: a negative index counts from the end;
`none` models the `IndexError` raised when the index is out of bounds. -/
def pyGetItem {α : Type} (l : List α) (i : Int) : Option α :=
  if i < 0 then
    if i + (l.length : Int) < 0 then none else l.get? (i + (l.length : Int)).toNat
  else
    l.get? i.toNat

/-- The `CloudflareD1Result` cursor: materialized rows, metadata, success
flag, and the mutable read position `_index` (a Python int, hence `Int`). -/
structure CloudflareD1Result where
  results : List Row
  meta : Meta
  success : Bool
  index : Int
deriving DecidableEq, Repr

/-- `CloudflareD1Result.__init__`: the read position starts at 0. -/
def mkCursor (results : List Row) (meta : Meta) (success : Bool) :
    CloudflareD1Result :=
  ⟨results, meta, success, 0⟩

namespace CloudflareD1Result

/-- `fetchone`: if `_index < len(results)`, return `results[_index]` and
advance the position by one; otherwise return the no-row sentinel. -/
def fetchone (c : CloudflareD1Result) : Option Row × CloudflareD1Result :=
  if c.index < (c.results.length : Int) then
    (pyGetItem c.results c.index, { c with index := c.index + 1 })
  else
    (none, c)

/-- `fetchmany`: `size=None` defaults to all remaining
(`len(results) - _index`); then `end = min(start + size, len(results))`,
the returned rows are the Python slice `results[start:end]`, and the
position is set to `end` (the unclamped-below value). -/
def fetchmany (c : CloudflareD1Result) (size : Option Int) :
    List Row × CloudflareD1Result :=
  let sz : Int := size.getD ((c.results.length : Int) - c.index)
  let start : Int := c.index
  let stop : Int := min (start + sz) (c.results.length : Int)
  (pySlice c.results start stop, { c with index := stop })

/-- `fetchall`: return the Python slice `results[_index:]` and set the
position to `len(results)`. -/
def fetchall (c : CloudflareD1Result) : List Row × CloudflareD1Result :=
  (pySlice c.results c.index (c.results.length : Int),
   { c with index := (c.results.length : Int) })

/-- `__iter__`: iteration is over the whole backing row list from index 0,
independent of the cursor position. -/
def iterRows (c : CloudflareD1Result) : List Row :=
  c.results

/-- `__getitem__(index)`: direct Python list indexing into the backing rows,
ignoring cursor state. -/
def getitem (c : CloudflareD1Result) (i : Int) : Option Row :=
  pyGetItem c.results i

/-- `rowcount`: `meta.get("changes", len(results))`. -/
def rowcount (c : CloudflareD1Result) : Val :=
  (dget c.meta "changes").getD (.int c.results.length)

/-- `lastrowid`: `meta.get("last_row_id")`. -/
def lastrowid (c : CloudflareD1Result) : Option Val :=
  dget c.meta "last_row_id"

/-- `description`: if the rows are non-empty, one 7-tuple
`(name, None, None, None, None, None, None)` per key of the first row,
in key order; `None` if the rows are empty.  A descriptor tuple is
modelled as the list of its components. -/
def description (c : CloudflareD1Result) : Option (List (List Val)) :=
  match c.results with
  | [] => none
  | firstRow :: _ =>
      some (firstRow.map (fun p => Val.str p.1 :: List.replicate 6 Val.null))

end CloudflareD1Result

/-- One abstract cursor operation of the consumer interface. -/
inductive CursorOp where
  | fetchone : CursorOp
  | fetchmany : Option Int → CursorOp
  | fetchall : CursorOp
  | iteration : CursorOp
  | getitem : Int → CursorOp
deriving DecidableEq, Repr

/-- Apply one cursor operation; return the resulting cursor together with
the number of rows the operation handed back to the caller. -/
def applyOp (c : CloudflareD1Result) : CursorOp → CloudflareD1Result × Nat
  | .fetchone =>
      let r := c.fetchone
      (r.2, if r.1.isSome then 1 else 0)
  | .fetchmany size =>
      let r := c.fetchmany size
      (r.2, r.1.length)
  | .fetchall =>
      let r := c.fetchall
      (r.2, r.1.length)
  | .iteration => (c, c.iterRows.length)
  | .getitem i => (c, if (c.getitem i).isSome then 1 else 0)

/-- The fetch operations: those the spec says advance the position by the
number of rows returned. -/
def isFetch : CursorOp → Bool
  | .fetchone => true
  | .fetchmany _ => true
  | .fetchall => true
  | .iteration => false
  | .getitem _ => false

/-- Run a finite sequence of cursor operations. -/
def runOps (c : CloudflareD1Result) : List CursorOp → CloudflareD1Result
  | [] => c
  | op :: ops => runOps (applyOp c op).1 ops

/-- The cursor position invariant claimed by the spec. -/
def cursorInv (c : CloudflareD1Result) : Prop :=
  0 ≤ c.index ∧ c.index ≤ (c.results.length : Int)

instance (c : CloudflareD1Result) : Decidable (cursorInv c) := by
  unfold cursorInv; infer_instance

/-- One entry of the `errors` array of the response envelope; the code
reads its message with `.get("message", "Unknown error")`, so the field
is optional here. -/
structure D1ErrorEntry where
  message : Option String
deriving DecidableEq, Repr

/-- One per-statement result block of the `result` array; every field is
read with a `.get` default in the code, so all are optional here. -/
structure QueryBlock where
  results : Option (List Row)
  meta : Option Meta
  success : Option Bool
deriving DecidableEq, Repr

/-- The parsed JSON response envelope; every field is read with a `.get`
default in the code (`success` defaults to `False`, `errors` and `result`
to `[]`), so all are optional here. -/
structure D1Envelope where
  success : Option Bool
  errors : Option (List D1ErrorEntry)
  result : Option (List QueryBlock)
deriving DecidableEq, Repr

/-- The outcome of the single HTTP POST issued by `execute`, i.e. the
behaviour of the transport collaborator on this call:
a network-level `httpx.RequestError`, a non-2xx status
(`response.raise_for_status()` raising `httpx.HTTPStatusError`),
a 2xx response whose body is not valid JSON, or a 2xx response with a
parsed envelope. -/
inductive TransportOutcome where
  | requestError : String → TransportOutcome
  | statusError : Nat → String → TransportOutcome
  | badJson : TransportOutcome
  | ok : D1Envelope → TransportOutcome
deriving DecidableEq, Repr

/-- The error taxonomy: one constructor per distinct raise site of the
code (all `RuntimeError` in Python, distinguished here as the spec's
tagged error kinds).  `closedChannel` is `RuntimeError("Connection is
closed")`; `transportRequestFailed` and `transportStatusFailed` are the
two `TransportError` sites; `protocolError` the JSON-decode failure;
`remoteQueryError` carries the full message of the `success=false` site. -/
inductive D1Error where
  | closedChannel : D1Error
  | transportRequestFailed : String → D1Error
  | transportStatusFailed : Nat → String → D1Error
  | protocolError : D1Error
  | remoteQueryError : String → D1Error
deriving DecidableEq, Repr

/-- The `CloudflareD1Connection` channel state. -/
structure CloudflareD1Connection where
  accountId : String
  databaseId : String
  apiToken : String
  closed : Bool
  inTransaction : Bool
deriving DecidableEq, Repr

/-- `CloudflareD1Connection.__init__`: the channel starts open and outside
a transaction. -/
def mkConnection (accountId databaseId apiToken : String) :
    CloudflareD1Connection :=
  ⟨accountId, databaseId, apiToken, false, false⟩

namespace CloudflareD1Connection

/-- `close`: if not already closed, release the client and set the closed
flag; idempotent. -/
def close (ch : CloudflareD1Connection) : CloudflareD1Connection :=
  if ch.closed then ch else { ch with closed := true }

/-- `execute(query, parameters)`, with the transport collaborator's
behaviour passed in as `transport`.  Returns the Python outcome
(`Except` models raised `RuntimeError`s) paired with a flag recording
whether the remote call was issued.  Mirrors the source: the closed
check comes first; then `data.get("success", False)` is validated, the
first entry of `errors` (default `[]`) supplies the error message with
default `"Unknown error"`, and a non-empty `result` (default `[]`)
yields a cursor from its first block with `success` defaulting to true. -/
def execute (ch : CloudflareD1Connection) (query : String)
    (parameters : Option (List Val)) (transport : TransportOutcome) :
    Except D1Error CloudflareD1Result × Bool :=
  if ch.closed then
    (.error .closedChannel, false)
  else
    match transport with
    | .requestError cause => (.error (.transportRequestFailed cause), true)
    | .statusError status body =>
        (.error (.transportStatusFailed status body), true)
    | .badJson => (.error .protocolError, true)
    | .ok env =>
        if env.success.getD false = false then
          match env.errors.getD [] with
          | [] => (.error (.remoteQueryError "D1 API request failed"), true)
          | entry :: _ =>
              (.error (.remoteQueryError
                ("D1 API error: " ++ entry.message.getD "Unknown error")), true)
        else
          match env.result.getD [] with
          | [] => (.ok (mkCursor [] [] true), true)
          | block :: _ =>
              (.ok (mkCursor (block.results.getD []) (block.meta.getD [])
                (block.success.getD true)), true)

/-- `execute_many(query, parameters_list)`: one `execute` per parameter
set, strictly in order, each paired with its transport outcome; the
first raised error aborts the loop and propagates. -/
def executeMany (ch : CloudflareD1Connection) (query : String) :
    List (Option (List Val) × TransportOutcome) →
    Except D1Error (List CloudflareD1Result)
  | [] => .ok []
  | (params, transport) :: rest =>
      match (ch.execute query params transport).1 with
      | .error e => .error e
      | .ok cursor =>
          match ch.executeMany query rest with
          | .error e => .error e
          | .ok cursors => .ok (cursor :: cursors)

/-- `begin_transaction`: sets the bookkeeping flag; performs no closed
check and cannot raise. -/
def beginTransaction (ch : CloudflareD1Connection) :
    Except D1Error CloudflareD1Connection :=
  .ok { ch with inTransaction := true }

/-- `commit_transaction`: clears the bookkeeping flag; performs no closed
check and cannot raise. -/
def commitTransaction (ch : CloudflareD1Connection) :
    Except D1Error CloudflareD1Connection :=
  .ok { ch with inTransaction := false }

/-- `rollback_transaction`: clears the bookkeeping flag; performs no
closed check and cannot raise. -/
def rollbackTransaction (ch : CloudflareD1Connection) :
    Except D1Error CloudflareD1Connection :=
  .ok { ch with inTransaction := false }

/-- `get_server_version`: returns the fixed constant; performs no closed
check and cannot raise. -/
def getServerVersion (_ch : CloudflareD1Connection) :
    Except D1Error String :=
  .ok "D1-REST-API"

end CloudflareD1Connection

/-! ### Sample data used by witnesses and counterexamples -/

/-- A sample one-column row. -/
def sampleRow1 : Row := [("id", Val.int 1)]

/-- A second sample one-column row. -/
def sampleRow2 : Row := [("id", Val.int 2)]

/-- A sample freshly constructed channel. -/
def sampleConn : CloudflareD1Connection := mkConnection "acct" "db" "token"

/-- A sample per-statement result block (its own `success` field absent). -/
def sampleBlock : QueryBlock :=
  ⟨some [sampleRow1], some [("changes", Val.int 1)], none⟩

/-- A sample 2xx envelope with `success=true` and one result block. -/
def sampleEnvOk : D1Envelope := ⟨some true, none, some [sampleBlock]⟩

/-- A sample 2xx envelope with `success=false` and one error entry. -/
def sampleEnvFail : D1Envelope :=
  ⟨some false, some [⟨some "syntax error"⟩], none⟩

/-- The cursor operations in which `fetchmany` is called with a
non-negative explicit size or with the size omitted; the other
operations have no size argument.  Sequences of such operations are the
ones for which the spec's position invariant actually holds. -/
def goodOp : CursorOp → Prop
  | .fetchmany (some k) => 0 ≤ k
  | _ => True

instance : DecidablePred goodOp := fun op =>
  match op with
  | .fetchone => .isTrue trivial
  | .fetchmany none => .isTrue trivial
  | .fetchmany (some k) => inferInstanceAs (Decidable (0 ≤ k))
  | .fetchall => .isTrue trivial
  | .iteration => .isTrue trivial
  | .getitem _ => .isTrue trivial

/-- Run a sequence of `fetchmany(k)` calls and concatenate the returned
slices in order. -/
def fetchmanySeq (c : CloudflareD1Result) : List Int → List Row
  | [] => []
  | k :: ks =>
      (c.fetchmany (some k)).1 ++ fetchmanySeq (c.fetchmany (some k)).2 ks

/-! ### Helper lemmas about Python slicing and indexing -/

theorem pyBound_of_nonneg_le (n : Nat) (i : Int) (h0 : 0 ≤ i)
    (hn : i ≤ (n : Int)) : pyBound n i = i := by
  unfold pyBound
  rw [if_neg (by omega)]
  omega

theorem pySlice_eq_drop_take {α : Type} (l : List α) (s e : Int)
    (hs0 : 0 ≤ s) (hsn : s ≤ (l.length : Int))
    (he0 : 0 ≤ e) (hen : e ≤ (l.length : Int)) :
    pySlice l s e = (l.drop s.toNat).take (e - s).toNat := by
  unfold pySlice
  rw [pyBound_of_nonneg_le _ _ hs0 hsn, pyBound_of_nonneg_le _ _ he0 hen]

theorem pySlice_same {α : Type} (l : List α) (s : Int) : pySlice l s s = [] := by
  unfold pySlice
  simp

theorem pyGetItem_of_nonneg {α : Type} (l : List α) (i : Int) (h0 : 0 ≤ i) :
    pyGetItem l i = l.get? i.toNat := by
  unfold pyGetItem
  rw [if_neg (by omega)]

theorem pyGetItem_isSome {α : Type} (l : List α) (i : Int) (h0 : 0 ≤ i)
    (hn : i < (l.length : Int)) : (pyGetItem l i).isSome := by
  rw [pyGetItem_of_nonneg l i h0, List.get?_eq_get (by omega)]
  rfl

theorem pyGetItem_of_neg {α : Type} (l : List α) (i : Int) (hneg : i < 0)
    (hge : -(l.length : Int) ≤ i) :
    pyGetItem l i = l.get? (i + (l.length : Int)).toNat := by
  unfold pyGetItem
  rw [if_pos hneg, if_neg (by omega)]

theorem close_closed (ch : CloudflareD1Connection) : ch.close.closed = true := by
  unfold CloudflareD1Connection.close
  split
  · assumption
  · rfl

theorem execute_on_closed (ch : CloudflareD1Connection) (h : ch.closed = true)
    (q : String) (p : Option (List Val)) (t : TransportOutcome) :
    ch.execute q p t = (.error .closedChannel, false) := by
  unfold CloudflareD1Connection.execute
  rw [h]
  rfl

/-! ### Helper lemmas about the cursor operations -/

theorem fetchmany_eq (c : CloudflareD1Result) (size : Option Int)
    (hinv : cursorInv c)
    (hsz : 0 ≤ size.getD ((c.results.length : Int) - c.index)) :
    c.fetchmany size =
      ((c.results.drop c.index.toNat).take
          (min (c.index + size.getD ((c.results.length : Int) - c.index))
              (c.results.length : Int) - c.index).toNat,
        { c with
            index := min (c.index + size.getD ((c.results.length : Int) - c.index))
              (c.results.length : Int) }) := by
  obtain ⟨h0, hn⟩ := hinv
  simp only [CloudflareD1Result.fetchmany]
  rw [pySlice_eq_drop_take _ _ _ h0 hn (by omega) (by omega)]

theorem fetchall_eq (c : CloudflareD1Result) (hinv : cursorInv c) :
    c.fetchall = (c.results.drop c.index.toNat,
      { c with index := (c.results.length : Int) }) := by
  obtain ⟨h0, hn⟩ := hinv
  simp only [CloudflareD1Result.fetchall]
  rw [pySlice_eq_drop_take _ _ _ h0 hn (by omega) (by omega)]
  have ht : ((c.results.length : Int) - c.index).toNat =
      c.results.length - c.index.toNat := by omega
  rw [ht]
  congr 1
  apply List.take_of_length_le
  rw [List.length_drop]

theorem applyOp_good_step (c : CloudflareD1Result) (op : CursorOp)
    (hinv : cursorInv c) (hop : goodOp op) :
    cursorInv (applyOp c op).1 ∧ c.index ≤ (applyOp c op).1.index ∧
      (isFetch op = true →
        (applyOp c op).1.index = c.index + ((applyOp c op).2 : Int)) := by
  obtain ⟨h0, hn⟩ := hinv
  cases op with
  | fetchone =>
      by_cases h : c.index < (c.results.length : Int)
      · have hs : (pyGetItem c.results c.index).isSome = true :=
          pyGetItem_isSome _ _ h0 h
        have he : applyOp c .fetchone = ({ c with index := c.index + 1 }, 1) := by
          simp [applyOp, CloudflareD1Result.fetchone, h, hs]
        rw [he]
        dsimp only [cursorInv]
        exact ⟨⟨by omega, by omega⟩, by omega, fun _ => by push_cast; omega⟩
      · have he : applyOp c .fetchone = (c, 0) := by
          simp [applyOp, CloudflareD1Result.fetchone, h]
        rw [he]
        exact ⟨⟨h0, hn⟩, le_refl _, fun _ => by dsimp only; omega⟩
  | fetchmany size =>
      have hsz : 0 ≤ size.getD ((c.results.length : Int) - c.index) := by
        cases size with
        | none => simp; omega
        | some k => simpa using hop
      simp only [applyOp]
      rw [fetchmany_eq c size ⟨h0, hn⟩ hsz]
      dsimp only [cursorInv]
      rw [List.length_take, List.length_drop]
      refine ⟨⟨by omega, by omega⟩, by omega, fun _ => by push_cast; omega⟩
  | fetchall =>
      simp only [applyOp]
      rw [fetchall_eq c ⟨h0, hn⟩]
      dsimp only [cursorInv]
      rw [List.length_drop]
      refine ⟨⟨by omega, by omega⟩, by omega, fun _ => by omega⟩
  | iteration =>
      exact ⟨⟨h0, hn⟩, le_refl _, fun h => by simp [isFetch] at h⟩
  | getitem i =>
      exact ⟨⟨h0, hn⟩, le_refl _, fun h => by simp [isFetch] at h⟩

theorem runOps_good (ops : List CursorOp) (c : CloudflareD1Result)
    (hinv : cursorInv c) (hops : ∀ op ∈ ops, goodOp op) :
    cursorInv (runOps c ops) ∧ c.index ≤ (runOps c ops).index := by
  induction ops generalizing c with
  | nil => exact ⟨hinv, le_refl _⟩
  | cons op ops ih =>
      have hstep := applyOp_good_step c op hinv (hops op (List.mem_cons_self op ops))
      have hrest := ih (applyOp c op).1 hstep.1
        (fun o ho => hops o (List.mem_cons_of_mem op ho))
      exact ⟨hrest.1, le_trans hstep.2.1 hrest.2⟩

theorem fetchmanySeq_drop (ks : List Int) (c : CloudflareD1Result)
    (hinv : cursorInv c) (hpos : ∀ k ∈ ks, 0 < k)
    (hsum : c.index + ks.sum = (c.results.length : Int)) :
    fetchmanySeq c ks = c.results.drop c.index.toNat := by
  induction ks generalizing c with
  | nil =>
      have ht : c.index.toNat = c.results.length := by
        simp at hsum
        omega
      simp [fetchmanySeq, ht]
  | cons k ks ih =>
      obtain ⟨h0, hn⟩ := hinv
      have hk : 0 < k := hpos k (List.mem_cons_self k ks)
      have hsumks : 0 ≤ ks.sum :=
        List.sum_nonneg (fun x hx => le_of_lt (hpos x (List.mem_cons_of_mem k hx)))
      rw [List.sum_cons] at hsum
      have hstop : min (c.index + k) (c.results.length : Int) = c.index + k := by
        omega
      rw [fetchmanySeq, fetchmany_eq c (some k) ⟨h0, hn⟩ (by simp; omega)]
      simp only [Option.getD_some, hstop]
      have hkk : (c.index + k - c.index).toNat = k.toNat := by omega
      rw [hkk]
      have hinv' : cursorInv { c with index := c.index + k } := by
        dsimp only [cursorInv]
        omega
      have hsum' : ({ c with index := c.index + k } : CloudflareD1Result).index +
          ks.sum =
          ((({ c with index := c.index + k } :
              CloudflareD1Result).results.length : Int)) := by
        dsimp only
        omega
      have hrest := ih { c with index := c.index + k } hinv'
        (fun x hx => hpos x (List.mem_cons_of_mem k hx)) hsum'
      dsimp only at hrest
      rw [hrest]
      have hik : (c.index + k).toNat = c.index.toNat + k.toNat := by omega
      rw [hik, ← List.drop_drop, List.take_append_drop]

/-! ### C1, C2: envelope validation in execute -/

/-- C1: for a 2xx response whose envelope has `success=true`, if the
`result` sequence (default `[]`) is non-empty, `execute` returns a
cursor built from the first block's `results`/`meta`/`success` fields
with `success` defaulting to true when absent; if it is empty, `execute`
returns a cursor with zero rows, empty metadata and `success=true`, and
that cursor has `rowcount = 0` and no `lastrowid`. -/
theorem execute_success_envelope (ch : CloudflareD1Connection) (q : String)
    (p : Option (List Val)) (env : D1Envelope)
    (hopen : ch.closed = false) (hsucc : env.success = some true) :
    (∀ block rest, env.result.getD [] = block :: rest →
      ch.execute q p (.ok env) =
        (.ok (mkCursor (block.results.getD []) (block.meta.getD [])
          (block.success.getD true)), true)) ∧
    (env.result.getD [] = [] →
      ch.execute q p (.ok env) = (.ok (mkCursor [] [] true), true) ∧
        (mkCursor [] [] true).rowcount = Val.int 0 ∧
        (mkCursor [] [] true).lastrowid = none) := by
  constructor
  · intro block rest hres
    simp [CloudflareD1Connection.execute, hopen, hsucc, hres]
  · intro hres
    refine ⟨?_, rfl, rfl⟩
    simp [CloudflareD1Connection.execute, hopen, hsucc, hres]

/-- C1 witness: a concrete open channel and a concrete `success=true`
envelope with one block (whose own `success` field is absent). -/
theorem execute_success_envelope_witness :
    sampleConn.closed = false ∧ sampleEnvOk.success = some true ∧
      sampleConn.execute "SELECT 1" none (.ok sampleEnvOk) =
        (.ok (mkCursor (sampleBlock.results.getD []) (sampleBlock.meta.getD [])
          (sampleBlock.success.getD true)), true) :=
  ⟨rfl, rfl,
    (execute_success_envelope sampleConn "SELECT 1" none sampleEnvOk rfl rfl).1
      sampleBlock [] rfl⟩

/-- C2: for a 2xx response whose envelope has `success=false`, `execute`
raises the remote-query error: when the `errors` sequence (default `[]`)
is non-empty the raised message embeds the first entry's message
(`"D1 API error: " ++ message`, with `"Unknown error"` when the entry
omits its message field); when it is empty or absent the generic
`"D1 API request failed"` message is raised.  In both cases the result
is an error, so no cursor is returned. -/
theorem execute_failure_envelope (ch : CloudflareD1Connection) (q : String)
    (p : Option (List Val)) (env : D1Envelope)
    (hopen : ch.closed = false) (hfail : env.success = some false) :
    (∀ entry rest, env.errors.getD [] = entry :: rest →
      ch.execute q p (.ok env) =
        (.error (.remoteQueryError
          ("D1 API error: " ++ entry.message.getD "Unknown error")), true)) ∧
    (env.errors.getD [] = [] →
      ch.execute q p (.ok env) =
        (.error (.remoteQueryError "D1 API request failed"), true)) := by
  constructor
  · intro entry rest herr
    simp [CloudflareD1Connection.execute, hopen, hfail, herr]
  · intro herr
    simp [CloudflareD1Connection.execute, hopen, hfail, herr]

/-- C2 witness: the spec's own example, a `success=false` envelope whose
first error entry has message `"syntax error"`. -/
theorem execute_failure_envelope_witness :
    sampleConn.closed = false ∧ sampleEnvFail.success = some false ∧
      sampleConn.execute "SELECT x" none (.ok sampleEnvFail) =
        (.error (.remoteQueryError "D1 API error: syntax error"), true) :=
  ⟨rfl, rfl,
    (execute_failure_envelope sampleConn "SELECT x" none sampleEnvFail rfl rfl).1
      ⟨some "syntax error"⟩ [] rfl⟩

/-! ### C7: execute on a closed channel -/

/-- C7: after `close()`, the channel reads closed, and every `execute`
call fails with the closed-channel error (`RuntimeError("Connection is
closed")`) without invoking the transport collaborator (the issued-call
flag is `false`). -/
theorem execute_after_close (ch : CloudflareD1Connection) (q : String)
    (p : Option (List Val)) (t : TransportOutcome) :
    ch.close.closed = true ∧
      ch.close.execute q p t = (.error .closedChannel, false) :=
  ⟨close_closed ch, execute_on_closed ch.close (close_closed ch) q p t⟩

/-! ### C8: which operations check the closed flag -/

/-- C8 counterexample: the claim says `get_server_version` (like every
interface operation) fails with the closed-channel error after `close()`;
in the code it performs no closed check and returns the version constant
normally. -/
theorem getServerVersion_after_close_ok :
    sampleConn.close.getServerVersion ≠ Except.error D1Error.closedChannel ∧
      sampleConn.close.getServerVersion = .ok "D1-REST-API" := by
  constructor
  · intro h
    simp [CloudflareD1Connection.getServerVersion] at h
  · rfl

/-! ### C3: the cursor position invariant -/

/-- C3 counterexample: the claim says the position stays in
`[0, len(rows)]` after every cursor operation with any integer
`fetchmany` size; running `fetchmany(-1)` on a fresh cursor over zero
rows drives the position to `-1`. -/
theorem fetchmany_negative_breaks_position :
    ¬ (0 ≤ (runOps (mkCursor [] [] true)
        [CursorOp.fetchmany (some (-1))]).index) := by
  decide

/-- C3 amended: restricted to operation sequences in which every explicit
`fetchmany` size is non-negative (for a negative size the code slices
with Python semantics, the position can decrease and can leave
`[0, len(rows)]`): starting from any cursor satisfying the position
invariant, each such operation preserves `0 ≤ position ≤ len(rows)`,
never decreases the position, and each fetch operation advances the
position by exactly the number of rows it returns; consequently any
sequence of such operations preserves the invariant and the position is
monotonically non-decreasing. -/
theorem cursor_position_invariant (c : CloudflareD1Result)
    (hinv : cursorInv c) :
    (∀ op : CursorOp, goodOp op →
      cursorInv (applyOp c op).1 ∧ c.index ≤ (applyOp c op).1.index ∧
        (isFetch op = true →
          (applyOp c op).1.index = c.index + ((applyOp c op).2 : Int))) ∧
    (∀ ops : List CursorOp, (∀ op ∈ ops, goodOp op) →
      cursorInv (runOps c ops) ∧ c.index ≤ (runOps c ops).index) :=
  ⟨fun op hop => applyOp_good_step c op hinv hop,
   fun ops hops => runOps_good ops c hinv hops⟩

/-- C3 witness: a concrete fresh cursor and a concrete operation
sequence. -/
theorem cursor_position_invariant_witness :
    cursorInv (mkCursor [sampleRow1] [] true) ∧
      cursorInv (runOps (mkCursor [sampleRow1] [] true)
        [CursorOp.fetchone, CursorOp.fetchall]) :=
  ⟨by decide,
    ((cursor_position_invariant (mkCursor [sampleRow1] [] true) (by decide)).2
      [CursorOp.fetchone, CursorOp.fetchall] (by decide)).1⟩

/-! ### C4: fetchmany with non-positive size -/

/-- C4 counterexample: the claim says any size ≤ 0 yields an empty
sequence and an unchanged position; on a fresh cursor over two rows,
`fetchmany(-1)` returns one row (the Python slice `rows[0:-1]`) and
moves the position to `-1`. -/
theorem fetchmany_negative_size_counterexample :
    ¬ ((((mkCursor [sampleRow1, sampleRow2] [] true).fetchmany
          (some (-1))).1 = []) ∧
        ((mkCursor [sampleRow1, sampleRow2] [] true).fetchmany
          (some (-1))).2.index =
          (mkCursor [sampleRow1, sampleRow2] [] true).index) := by
  decide

/-- C4 amended: for size = 0 (rather than any size ≤ 0), `fetchmany`
returns an empty sequence without error and leaves the cursor — in
particular its position — unchanged, on every cursor whose position does
not exceed the row count; a negative size instead follows Python slice
semantics and can return rows and move the position. -/
theorem fetchmany_zero_size (c : CloudflareD1Result)
    (h : c.index ≤ (c.results.length : Int)) :
    c.fetchmany (some 0) = ([], c) := by
  have hmin : min (c.index + 0) (c.results.length : Int) = c.index := by
    omega
  simp only [CloudflareD1Result.fetchmany, Option.getD_some, hmin]
  rw [pySlice_same]

/-- C4 witness: `fetchmany(0)` on a concrete fresh cursor. -/
theorem fetchmany_zero_size_witness :
    (mkCursor [sampleRow1] [] true).index ≤
        (((mkCursor [sampleRow1] [] true).results.length : Int)) ∧
      (mkCursor [sampleRow1] [] true).fetchmany (some 0) =
        ([], mkCursor [sampleRow1] [] true) :=
  ⟨by decide, fetchmany_zero_size (mkCursor [sampleRow1] [] true) (by decide)⟩

/-! ### C5: fetchall -/

/-- C5: on a freshly constructed cursor over `R`, `fetchall` returns
exactly `R` in order and sets the position to `len(R)`; in general, on
any cursor satisfying the position invariant, `fetchall` returns the
rows from the current position onward and sets the position to
`len(rows)`. -/
theorem fetchall_spec :
    (∀ (R : List Row) (m : Meta) (s : Bool),
      (mkCursor R m s).fetchall =
        (R, { mkCursor R m s with index := (R.length : Int) })) ∧
    (∀ c : CloudflareD1Result, cursorInv c →
      c.fetchall = (c.results.drop c.index.toNat,
        { c with index := (c.results.length : Int) })) := by
  constructor
  · intro R m s
    have h := fetchall_eq (mkCursor R m s) ⟨le_refl 0, by simp [mkCursor]⟩
    simpa [mkCursor] using h
  · intro c hc
    exact fetchall_eq c hc

/-- C5 witness: `fetchall` on a concrete cursor satisfying the
invariant. -/
theorem fetchall_spec_witness :
    cursorInv (mkCursor [sampleRow1, sampleRow2] [] true) ∧
      (mkCursor [sampleRow1, sampleRow2] [] true).fetchall =
        ((mkCursor [sampleRow1, sampleRow2] [] true).results.drop
            (mkCursor [sampleRow1, sampleRow2] [] true).index.toNat,
          { mkCursor [sampleRow1, sampleRow2] [] true with
              index := (((mkCursor [sampleRow1, sampleRow2] []
                true).results.length : Int)) }) :=
  ⟨by decide,
    fetchall_spec.2 (mkCursor [sampleRow1, sampleRow2] [] true) (by decide)⟩

/-! ### C6: fetchmany partition -/

/-- C6: on a fresh cursor over `R`, any sequence of `fetchmany(k)` calls
with every `k` positive and the `k`s summing to `len(R)` returns slices
whose concatenation is exactly `R` in order. -/
theorem fetchmany_partition (R : List Row) (m : Meta) (s : Bool)
    (ks : List Int) (hpos : ∀ k ∈ ks, 0 < k)
    (hsum : ks.sum = (R.length : Int)) :
    fetchmanySeq (mkCursor R m s) ks = R := by
  have h := fetchmanySeq_drop ks (mkCursor R m s)
    ⟨le_refl 0, by simp [mkCursor]⟩ hpos (by simpa [mkCursor] using hsum)
  simpa [mkCursor] using h

/-- C6 witness: two rows consumed as `fetchmany(1); fetchmany(1)`. -/
theorem fetchmany_partition_witness :
    (∀ k ∈ [(1 : Int), 1], 0 < k) ∧
      ([(1 : Int), 1].sum = ((([sampleRow1, sampleRow2] :
        List Row).length : Int))) ∧
      fetchmanySeq (mkCursor [sampleRow1, sampleRow2] [] true) [1, 1] =
        [sampleRow1, sampleRow2] :=
  ⟨by decide, by decide,
    fetchmany_partition [sampleRow1, sampleRow2] [] true [1, 1]
      (by decide) (by decide)⟩

/-! ### C9: description -/

/-- C9 counterexample: the claim says each descriptor is the column name
followed by five placeholder fields; on a cursor whose first row has the
single key `"id"`, the descriptor the code builds is the 7-tuple
`("id", None, None, None, None, None, None)` — the name followed by six
placeholders, not five. -/
theorem description_not_five_fields :
    ¬ ((mkCursor [sampleRow1] [] true).description =
        some [Val.str "id" :: List.replicate 5 Val.null]) := by
  decide

/-- C9 amended: if the rows are non-empty, `description` is an ordered
sequence with exactly one descriptor per key of the first row, each
descriptor being the column name followed by six (not five)
unspecified/placeholder fields; if the rows are empty, `description` is
absent. -/
theorem description_fields (c : CloudflareD1Result) :
    (c.results = [] → c.description = none) ∧
    (∀ r rest, c.results = r :: rest →
      c.description =
        some (r.map (fun p => Val.str p.1 :: List.replicate 6 Val.null))) := by
  constructor
  · intro h
    simp [CloudflareD1Result.description, h]
  · intro r rest h
    simp [CloudflareD1Result.description, h]

/-- C9 witness: both the empty-row case and a one-row case. -/
theorem description_fields_witness :
    (mkCursor [] [] true).description = none ∧
      (mkCursor [sampleRow1] [] true).description =
        some (sampleRow1.map
          (fun p => Val.str p.1 :: List.replicate 6 Val.null)) :=
  ⟨(description_fields (mkCursor [] [] true)).1 rfl,
    (description_fields (mkCursor [sampleRow1] [] true)).2 sampleRow1 [] rfl⟩

/-! ### C10: negative indexed access -/

/-- C10: on a cursor over a non-empty row list `R`, indexed access with
`-len(R) ≤ i < 0` returns the row `R[len(R)+i]` (counting from the end)
rather than failing with an out-of-bounds condition, and — since
`__getitem__` ignores cursor state — leaves the cursor, in particular
its position, unchanged. -/
theorem getitem_negative_index (c : CloudflareD1Result) (i : Int)
    (h1 : -((c.results.length : Int)) ≤ i) (h2 : i < 0) :
    c.getitem i = c.results.get? (i + (c.results.length : Int)).toNat ∧
      (c.getitem i).isSome = true ∧
      (applyOp c (CursorOp.getitem i)).1 = c := by
  have hg := pyGetItem_of_neg c.results i h2 h1
  have hlt : (i + (c.results.length : Int)).toNat < c.results.length := by
    omega
  refine ⟨hg, ?_, rfl⟩
  show (pyGetItem c.results i).isSome = true
  rw [hg, List.get?_eq_get hlt]
  rfl

/-- C10 witness: index `-1` on a concrete two-row cursor. -/
theorem getitem_negative_index_witness :
    (-(((mkCursor [sampleRow1, sampleRow2] [] true).results.length :
        Int)) ≤ (-1 : Int)) ∧
      (mkCursor [sampleRow1, sampleRow2] [] true).getitem (-1) =
        (mkCursor [sampleRow1, sampleRow2] [] true).results.get?
          ((-1) + (((mkCursor [sampleRow1, sampleRow2] []
            true).results.length : Int))).toNat :=
  ⟨by decide,
    (getitem_negative_index (mkCursor [sampleRow1, sampleRow2] [] true)
      (-1) (by decide) (by decide)).1⟩

/-- C8 amended: after `close()`, `execute` (and `execute_many` once it
performs its first `execute`) fails with the closed-channel error, but
`begin_transaction`, `commit_transaction`, `rollback_transaction` and
`get_server_version` perform no closed check and complete normally;
`execute_many` with an empty parameter list also returns normally. -/
theorem close_op_behaviour (ch : CloudflareD1Connection) (q : String)
    (p : Option (List Val)) (t : TransportOutcome)
    (rest : List (Option (List Val) × TransportOutcome)) :
    (ch.close.execute q p t).1 = .error .closedChannel ∧
      ch.close.executeMany q ((p, t) :: rest) = .error .closedChannel ∧
      ch.close.executeMany q [] = .ok [] ∧
      ch.close.beginTransaction = .ok { ch.close with inTransaction := true } ∧
      ch.close.commitTransaction = .ok { ch.close with inTransaction := false } ∧
      ch.close.rollbackTransaction =
        .ok { ch.close with inTransaction := false } ∧
      ch.close.getServerVersion = .ok "D1-REST-API" := by
  have hexec := execute_on_closed ch.close (close_closed ch) q p t
  refine ⟨by rw [hexec], ?_, rfl, rfl, rfl, rfl, rfl⟩
  unfold CloudflareD1Connection.executeMany
  rw [hexec]

end D1
